import Mathlib

set_option allowUnsafeReducibility true
set_option maxRecDepth 400000
set_option maxHeartbeats 16000000
attribute [semireducible] Rat.add Rat.mul Rat.inv Rat.sub Rat.ofScientific

/- Shallow embedding of libswiftnav's pvt.c: the single-point GNSS PVT solver
   with RAIM fault detection and exclusion.  IEEE doubles are modelled as exact
   rationals.  The external collaborators that live outside src/ (the square
   root used by vector_norm from linear_algebra.c, the geodesy conversions from
   coord_system.c, GPS time normalization, and the iteration cap from pvt.h)
   are parameters gathered in an environment structure `Env`, following the
   interface contracts of the specification. -/

namespace Pvt

/-- Modelled from the spec: speed of light (constants.h, not under src/). -/
def GPS_C : ℚ := 299792458

/-- Modelled from the spec: Earth rotation rate 7.2921151467e-5 rad/s
    (constants.h, not under src/). -/
def GPS_OMEGAE_DOT : ℚ := 72921151467 / 10 ^ 15

/-- Modelled from the spec: L1 carrier frequency 1.57542e9 Hz
    (constants.h, not under src/). -/
def GPS_L1_HZ : ℚ := 1575420000

/-- GPS time stamp: week number and time of week (gps_time_t). -/
structure GpsTime where
  wn : ℤ
  tow : ℚ
deriving DecidableEq

/-- The fields of navigation_measurement_t that pvt.c reads (track.h). -/
structure Meas where
  pseudorange : ℚ
  doppler : ℚ
  sat_pos : Fin 3 → ℚ
  sat_vel : Fin 3 → ℚ
  sid : ℕ
  tot : GpsTime

instance : Inhabited Meas := ⟨⟨0, 0, fun _ => 0, fun _ => 0, 0, ⟨0, 0⟩⟩⟩

/-- Modelled from the spec: the external collaborators of pvt.c (spec section 6)
    that are not part of src/ — the numeric square root backing vector_norm,
    the geodesy conversions ecef2ned_matrix / wgsecef2llh / wgsecef2ned, GPS
    time normalization — together with the fixed Newton-Raphson iteration cap
    PVT_MAX_ITERATIONS declared in pvt.h. -/
structure Env where
  sqrt : ℚ → ℚ
  ecef2ned : (Fin 3 → ℚ) → (Fin 3 → Fin 3 → ℚ)
  llh : (Fin 3 → ℚ) → (Fin 3 → ℚ)
  nedVel : (Fin 3 → ℚ) → (Fin 3 → ℚ) → (Fin 3 → ℚ)
  normTime : GpsTime → GpsTime
  maxIter : ℕ

/-- Modelled from the spec: vector_dot of linear_algebra.c. -/
def vector_dot (a b : List ℚ) : ℚ := (List.zipWith (fun x y => x * y) a b).sum

/-- Sum of squares of the entries of a vector. -/
def vnormSq (v : List ℚ) : ℚ := (v.map (fun x => x * x)).sum

/-- Modelled from the spec: vector_norm of linear_algebra.c — the Euclidean
    norm, i.e. the external square root applied to the sum of squares. -/
def vector_norm (E : Env) (v : List ℚ) : ℚ := E.sqrt (vnormSq v)

/-- Determinant of a 3×3 matrix given entrywise (row major). -/
def det3 (a b c d e f g h i : ℚ) : ℚ :=
  a * (e * i - f * h) - b * (d * i - f * g) + c * (d * h - e * g)

/-- 3×3 minor of a 4×4 matrix: delete row r and column c. -/
def minor4 (M : Fin 4 → Fin 4 → ℚ) (r c : Fin 4) : ℚ :=
  det3 (M (r.succAbove 0) (c.succAbove 0)) (M (r.succAbove 0) (c.succAbove 1))
       (M (r.succAbove 0) (c.succAbove 2))
       (M (r.succAbove 1) (c.succAbove 0)) (M (r.succAbove 1) (c.succAbove 1))
       (M (r.succAbove 1) (c.succAbove 2))
       (M (r.succAbove 2) (c.succAbove 0)) (M (r.succAbove 2) (c.succAbove 1))
       (M (r.succAbove 2) (c.succAbove 2))

/-- Determinant of a 4×4 matrix, cofactor expansion along row 0. -/
def det4 (M : Fin 4 → Fin 4 → ℚ) : ℚ :=
  M 0 0 * minor4 M 0 0 - M 0 1 * minor4 M 0 1 + M 0 2 * minor4 M 0 2 - M 0 3 * minor4 M 0 3

/-- Modelled from the spec: matrix_inverse of linear_algebra.c restricted to the
    4×4 case used by pvt_solve — adjugate over determinant.  On singular input
    the inverse is undefined (spec section 6: the caller must avoid degenerate
    geometry); here the total rational division by a zero determinant yields
    junk zero entries. -/
def inv4 (M : Fin 4 → Fin 4 → ℚ) : Fin 4 → Fin 4 → ℚ :=
  fun i j => (-1 : ℚ) ^ ((i : ℕ) + (j : ℕ)) * minor4 M j i / det4 M

/-- One turn of the per-measurement loop of pvt_solve: Sagnac-corrected
    satellite position, geometry-matrix row, observed-minus-predicted entry. -/
def geomRow (E : Env) (rx : Fin 8 → ℚ) (m : Meas) : (Fin 4 → ℚ) × ℚ :=
  let tau := vector_norm E [rx 0 - m.sat_pos 0, rx 1 - m.sat_pos 1, rx 2 - m.sat_pos 2] / GPS_C
  let wEtau := GPS_OMEGAE_DOT * tau
  let xk0 := m.sat_pos 0 + wEtau * m.sat_pos 1
  let xk1 := m.sat_pos 1 - wEtau * m.sat_pos 0
  let xk2 := m.sat_pos 2
  let los0 := xk0 - rx 0
  let los1 := xk1 - rx 1
  let los2 := xk2 - rx 2
  let pj := vector_norm E [los0, los1, los2]
  (fun i => if i = 0 then -los0 / pj else if i = 1 then -los1 / pj
            else if i = 2 then -los2 / pj else 1,
   m.pseudorange - pj)

/-- Geometry rows and observed-minus-predicted entries for all measurements. -/
def geomRows (E : Env) (meas : List Meas) (rx : Fin 8 → ℚ) : List ((Fin 4 → ℚ) × ℚ) :=
  meas.map (geomRow E rx)

/-- Gᵀ·G from the list of geometry rows. -/
def gtg (rows : List (Fin 4 → ℚ)) : Fin 4 → Fin 4 → ℚ :=
  fun i k => (rows.map (fun g => g i * g k)).sum

/-- H = (GᵀG)⁻¹ as computed by pvt_solve. -/
def solveH (E : Env) (meas : List Meas) (rx : Fin 8 → ℚ) : Fin 4 → Fin 4 → ℚ :=
  inv4 (gtg ((geomRows E meas rx).map Prod.fst))

/-- The Newton-Raphson state correction of one pvt_solve step:
    correction = X·omp with X = H·Gᵀ. -/
def pvtCorrection (E : Env) (meas : List Meas) (rx : Fin 8 → ℚ) : Fin 4 → ℚ :=
  let rows := geomRows E meas rx
  let H := solveH E meas rx
  fun i => (rows.map (fun go =>
    (H i 0 * go.1 0 + H i 1 * go.1 1 + H i 2 * go.1 2 + H i 3 * go.1 3) * go.2)).sum

/-- The norm of the position part of the correction, against which pvt_solve
    checks convergence (vector_norm(3, correction)). -/
def solveNorm (E : Env) (meas : List Meas) (rx : Fin 8 → ℚ) : ℚ :=
  vector_norm E [pvtCorrection E meas rx 0, pvtCorrection E meas rx 1, pvtCorrection E meas rx 2]

/-- vel_solve: one-shot least-squares velocity solution from Doppler residuals,
    using the geometry and X matrices of the converged position step. -/
def vel_solve (E : Env) (meas : List Meas) (rx : Fin 8 → ℚ) : Fin 4 → ℚ :=
  let rows := geomRows E meas rx
  let H := solveH E meas rx
  fun i => ((rows.zip meas).map (fun rm =>
    (H i 0 * rm.1.1 0 + H i 1 * rm.1.1 1 + H i 2 * rm.1.1 2 + H i 3 * rm.1.1 3) *
      (-rm.2.doppler * GPS_C / GPS_L1_HZ -
        (-(vector_dot [rm.1.1 0, rm.1.1 1, rm.1.1 2]
                      [rm.2.sat_vel 0, rm.2.sat_vel 1, rm.2.sat_vel 2]))))).sum

/-- Everything one call of pvt_solve writes: the updated receiver state, the
    observed-minus-predicted buffer, the covariance matrix H and the signed
    return value. -/
structure SolveOut where
  state : Fin 8 → ℚ
  omp : List ℚ
  H : Fin 4 → Fin 4 → ℚ
  ret : ℚ

/-- One Newton-Raphson step (pvt_solve): build geometry, solve the normal
    equations, apply the correction (position incremented, clock bias
    replaced), and return minus the position-correction norm while it exceeds
    0.001, the non-negated norm — after running vel_solve — once it does not. -/
def pvt_solve (E : Env) (meas : List Meas) (rx : Fin 8 → ℚ) : SolveOut :=
  let omp := (geomRows E meas rx).map Prod.snd
  let H := solveH E meas rx
  let c := pvtCorrection E meas rx
  let st1 : Fin 8 → ℚ := fun i =>
    if i = 0 then rx 0 + c 0 else if i = 1 then rx 1 + c 1 else if i = 2 then rx 2 + c 2
    else if i = 3 then c 3 else rx i
  let tempd := solveNorm E meas rx
  if 1 / 1000 < tempd then ⟨st1, omp, H, -tempd⟩
  else
    let v := vel_solve E meas rx
    ⟨fun i => if i = 4 then v 0 else if i = 5 then v 1 else if i = 6 then v 2
              else if i = 7 then v 3 else st1 i,
     omp, H, tempd⟩

/-- What pvt_iter reports: final state, omp, H and the convergence flag
    (0 converged, -1 iteration budget exhausted). -/
structure IterOut where
  state : Fin 8 → ℚ
  omp : List ℚ
  H : Fin 4 → Fin 4 → ℚ
  flag : ℤ

/-- The Newton-Raphson for-loop of pvt_iter with explicit remaining fuel;
    on exhaustion the position components of the state are reset to zero. -/
def pvtLoop (E : Env) (meas : List Meas) : ℕ → (Fin 8 → ℚ) → List ℚ → (Fin 4 → Fin 4 → ℚ) → IterOut
  | 0, st, om, h =>
      ⟨fun i => if i = 0 then 0 else if i = 1 then 0 else if i = 2 then 0 else st i, om, h, -1⟩
  | fuel + 1, st, _om, _h =>
      let r := pvt_solve E meas st
      if 0 < r.ret then ⟨r.state, r.omp, r.H, 0⟩
      else pvtLoop E meas fuel r.state r.omp r.H

/-- The reset of the velocity / clock-drift slots performed at the top of
    pvt_iter. -/
def resetVel (st : Fin 8 → ℚ) : Fin 8 → ℚ := fun i => if (i : ℕ) < 4 then st i else 0

/-- pvt_iter: zero the velocity state, then iterate pvt_solve up to the cap. -/
def pvt_iter (E : Env) (meas : List Meas) (st0 : Fin 8 → ℚ) (om0 : List ℚ)
    (h0 : Fin 4 → Fin 4 → ℚ) : IterOut :=
  pvtLoop E meas E.maxIter (resetVel st0) om0 h0

/-- The state reached after k pvt_solve steps from the (velocity-reset)
    start state: the trajectory pvt_iter walks along. -/
def solveStateAt (E : Env) (meas : List Meas) (st0 : Fin 8 → ℚ) (k : ℕ) : Fin 8 → ℚ :=
  (fun s => (pvt_solve E meas s).state)^[k] (resetVel st0)

/-- The signed return value of the (k+1)-st pvt_solve call of pvt_iter. -/
def solveRetAt (E : Env) (meas : List Meas) (st0 : Fin 8 → ℚ) (k : ℕ) : ℚ :=
  (pvt_solve E meas (solveStateAt E meas st0 k)).ret

/-- residual_test: subtract the clock bias from every omp entry in place, then
    compare the norm of the adjusted buffer against PVT_RESIDUAL_THRESHOLD
    (3000).  Returns the mutated buffer and the test verdict. -/
def residual_test (E : Env) (omp : List ℚ) (rx : Fin 8 → ℚ) : List ℚ × Bool :=
  let omp' := omp.map (fun x => x - rx 3)
  (omp', decide (vector_norm E omp' < 3000))

/-- The in-place pointer swap of pvt_repair's permutation loop:
    temp = l[i]; l[i] = l[j]; l[j] = temp. -/
def listSwap (l : List Meas) (i j : ℕ) : List Meas :=
  (l.set i (l.getD j default)).set j (l.getD i default)

/-- The permuted measurement array at the moment pvt_repair's scan is about
    to execute the iteration with drop index k - 1: positions 0..k-1 hold the
    original measurements and the already-processed block is rotated so that
    measurement k sits in the last slot.  entSub meas meas.length is meas
    itself — the state before the first iteration. -/
def entSub (meas : List Meas) (k : ℕ) : List Meas :=
  meas.eraseIdx k ++ (meas.drop k).take 1

/-- The state of pvt_repair's leave-one-out scan when the loop finishes (or
    aborts because one subset solution failed to converge).  `numPassing`,
    `badSat` and `aborted` mirror the C locals; `solves`, `tests` and
    `subsetsSolved` instrument how many subset solves / residual tests were
    run, and which measurement subsets were solved, in order. -/
structure ScanOut where
  subset : List Meas
  state : Fin 8 → ℚ
  omp : List ℚ
  H : Fin 4 → Fin 4 → ℚ
  numPassing : ℕ
  badSat : ℤ
  aborted : Bool
  solves : ℕ
  tests : ℕ
  subsetsSolved : List (List Meas)

/-- The `for (drop = one_less; drop >= 0; drop--)` loop of pvt_repair.  The
    first argument after n is the countdown fuel: fuel = k+1 means the current
    drop index is k. -/
def repairScan (E : Env) (n : ℕ) :
    ℕ → List Meas → (Fin 8 → ℚ) → List ℚ → (Fin 4 → Fin 4 → ℚ) → ℕ → ℤ → ℕ → ℕ →
    List (List Meas) → ScanOut
  | 0, subset, st, om, h, np, bs, acc, tst, subs => ⟨subset, st, om, h, np, bs, false, acc, tst, subs⟩
  | k + 1, subset, st, om, h, np, bs, acc, tst, subs =>
      let subset' := listSwap subset k (n - 1)
      let tryMeas := subset'.take (n - 1)
      let it := pvt_iter E tryMeas st om h
      if it.flag = -1 then
        ⟨subset', it.state, it.omp, it.H, np, bs, true, acc + 1, tst, subs ++ [tryMeas]⟩
      else
        let rt := residual_test E it.omp it.state
        if rt.2 then
          repairScan E n k subset' it.state rt.1 it.H (np + 1) (k : ℤ) (acc + 1) (tst + 1)
            (subs ++ [tryMeas])
        else
          repairScan E n k subset' it.state rt.1 it.H np bs (acc + 1) (tst + 1)
            (subs ++ [tryMeas])

/-- What pvt_repair reports: outputs, return code, the sid of the removed
    measurement (if any), plus the instrumentation counters of the scan. -/
structure RepairOut where
  state : Fin 8 → ℚ
  omp : List ℚ
  H : Fin 4 → Fin 4 → ℚ
  ret : ℤ
  removed : Option ℕ
  scanSolves : ℕ
  tests : ℕ
  subsetsSolved : List (List Meas)

/-- pvt_repair: solve each of the n leave-one-out subsets; if exactly one of
    them passes the residual test, recompute and keep that subset's solution
    and report the excluded satellite, otherwise report failure. -/
def pvt_repair (E : Env) (meas : List Meas) (st : Fin 8 → ℚ) (om : List ℚ)
    (h : Fin 4 → Fin 4 → ℚ) : RepairOut :=
  let n := meas.length
  let s := repairScan E n n meas st om h 0 (-1) 0 0 []
  if s.aborted then ⟨s.state, s.omp, s.H, -1, none, s.solves, s.tests, s.subsetsSolved⟩
  else if s.numPassing = 1 then
    let subset2 := (meas.set s.badSat.toNat (meas.getD (n - 1) default)).take (n - 1)
    let it2 := pvt_iter E subset2 s.state s.omp s.H
    ⟨it2.state, it2.omp, it2.H, 1, some ((meas.getD s.badSat.toNat default).sid),
     s.solves, s.tests, s.subsetsSolved⟩
  else ⟨s.state, s.omp, s.H, -1, none, s.solves, s.tests, s.subsetsSolved⟩

/-- What pvt_solve_raim reports: outputs, return code, removed sid, and the
    instrumentation counters (how many residual tests ran, and how many
    leave-one-out subset solves the repair scan performed). -/
structure RaimOut where
  state : Fin 8 → ℚ
  omp : List ℚ
  H : Fin 4 → Fin 4 → ℚ
  code : ℤ
  removed : Option ℕ
  testsRun : ℕ
  repairScanSolves : ℕ

/-- pvt_solve_raim: solve with all measurements; if the solve converged, run
    the residual test unless RAIM is disabled (note the short-circuit: the
    test IS evaluated whenever RAIM is enabled); on a passing test return 2
    when RAIM is disabled or exactly 4 measurements were used, else 0; on a
    failing test return -2 when fewer than 6 measurements are available,
    otherwise attempt repair. -/
def pvt_solve_raim (E : Env) (meas : List Meas) (disable_raim : Bool)
    (st0 : Fin 8 → ℚ) (h0 : Fin 4 → Fin 4 → ℚ) : RaimOut :=
  let n := meas.length
  let it := pvt_iter E meas st0 (List.replicate n 0) h0
  if it.flag = -1 then ⟨it.state, it.omp, it.H, -3, none, 0, 0⟩
  else if disable_raim then ⟨it.state, it.omp, it.H, 2, none, 0, 0⟩
  else
    let rt := residual_test E it.omp it.state
    if rt.2 then
      if n = 4 then ⟨it.state, rt.1, it.H, 2, none, 1, 0⟩
      else ⟨it.state, rt.1, it.H, 0, none, 1, 0⟩
    else if n < 6 then ⟨it.state, rt.1, it.H, -2, none, 1, 0⟩
    else
      let rp := pvt_repair E meas it.state rt.1 it.H
      ⟨rp.state, rp.omp, rp.H, rp.ret, rp.removed, 1 + rp.tests, rp.scanSolves⟩

/-- The gnss_solution output structure, with the fields pvt.c populates. -/
structure Solution where
  pos_ecef : Fin 3 → ℚ
  pos_llh : Fin 3 → ℚ
  vel_ecef : Fin 3 → ℚ
  vel_ned : Fin 3 → ℚ
  err_cov : Fin 7 → ℚ
  clock_offset : ℚ
  clock_bias : ℚ
  n_used : ℕ
  valid : ℕ
  time : GpsTime

/-- The all-zero solution produced by memset(soln, 0, sizeof(*soln)). -/
def zeroSolution : Solution :=
  ⟨fun _ => 0, fun _ => 0, fun _ => 0, fun _ => 0, fun _ => 0, 0, 0, 0, 0, ⟨0, 0⟩⟩

/-- The dops_t structure of dilution-of-precision metrics. -/
structure Dops where
  pdop : ℚ
  gdop : ℚ
  tdop : ℚ
  hdop : ℚ
  vdop : ℚ

/-- The VDOP² computed by compute_dops: the ECEF down unit vector (row 2 of
    the ECEF-to-NED rotation at pos, fourth component 0) projected through the
    first three rows of H and dotted with itself. -/
def vdopSq (E : Env) (H : Fin 4 → Fin 4 → ℚ) (pos : Fin 3 → ℚ) : ℚ :=
  let M := E.ecef2ned pos
  let d0 := M 2 0
  let d1 := M 2 1
  let d2 := M 2 2
  let tmp0 := H 0 0 * d0 + H 0 1 * d1 + H 0 2 * d2 + H 0 3 * 0
  let tmp1 := H 1 0 * d0 + H 1 1 * d1 + H 1 2 * d2 + H 1 3 * 0
  let tmp2 := H 2 0 * d0 + H 2 1 * d1 + H 2 2 * d2 + H 2 3 * 0
  d0 * tmp0 + d1 * tmp1 + d2 * tmp2

/-- compute_dops: PDOP from the position trace of H, TDOP from the clock
    diagonal, GDOP from their sum, VDOP by projecting H through the ECEF
    down unit vector (row 2 of the ECEF-to-NED rotation), HDOP from
    PDOP² − VDOP². -/
def compute_dops (E : Env) (H : Fin 4 → Fin 4 → ℚ) (pos : Fin 3 → ℚ) : Dops :=
  let pdop_sq := H 0 0 + H 1 1 + H 2 2
  let vdop_sq := vdopSq E H pos
  { pdop := E.sqrt pdop_sq, tdop := E.sqrt (H 3 3), gdop := E.sqrt (pdop_sq + H 3 3),
    vdop := E.sqrt vdop_sq, hdop := E.sqrt (pdop_sq - vdop_sq) }

/-- filter_solution: reject PDOP above 50 (reason 1) or geodetic altitude
    outside [-1e3, 1e6] (reason 2); 0 means the solution is acceptable. -/
def filter_solution (soln : Solution) (dops : Dops) : ℕ :=
  if 50 < dops.pdop then 1
  else if soln.pos_llh 2 < -1000 ∨ 1000000 < soln.pos_llh 2 then 2
  else 0

/-- The solution and DOP structures calc_PVT assembles from the RAIM result
    before running the quality filter (valid still 0 at this point). -/
def buildSolution (E : Env) (meas : List Meas) (st : Fin 8 → ℚ)
    (H : Fin 4 → Fin 4 → ℚ) (soln1 : Solution) : Solution × Dops :=
  let pos : Fin 3 → ℚ := fun i => if i = 0 then st 0 else if i = 1 then st 1 else st 2
  let vel : Fin 3 → ℚ := fun i => if i = 0 then st 4 else if i = 1 then st 5 else st 6
  let dops := compute_dops E H pos
  let m0 := meas.headD default
  ({ soln1 with
      err_cov := fun i =>
        if i = 0 then H 0 0 else if i = 1 then H 0 1 else if i = 2 then H 0 2
        else if i = 3 then H 1 1 else if i = 4 then H 1 2 else if i = 5 then H 2 2
        else dops.gdop,
      pos_ecef := pos,
      vel_ecef := vel,
      vel_ned := E.nedVel vel pos,
      pos_llh := E.llh pos,
      clock_offset := st 3 / GPS_C,
      clock_bias := st 7 / GPS_C,
      time := E.normTime ⟨m0.tot.wn, m0.tot.tow + m0.pseudorange / GPS_C - st 3 / GPS_C⟩ },
   dops)

/-- Everything one call of calc_PVT leaves behind: the status code, the output
    solution and DOP structures, the persistent receiver state, plus the
    instrumentation counters threaded up from the RAIM stage. -/
structure CalcOut where
  code : ℤ
  soln : Solution
  dops : Dops
  state : Fin 8 → ℚ
  removed : Option ℕ
  testsRun : ℕ
  repairScanSolves : ℕ

/-- calc_PVT: fewer than 4 measurements returns -7 untouched; otherwise clear
    the validity flag, run the solve + RAIM stage (negative RAIM codes map to
    calc codes by subtracting 3), decrement the reported measurement count on
    a repaired solution, populate the solution and DOP outputs, and run the
    quality filter — a rejection zeroes the solution and the position part of
    the persistent state, acceptance marks the solution valid. -/
def calc_PVT (E : Env) (meas : List Meas) (disable_raim : Bool) (soln0 : Solution)
    (dops0 : Dops) (st0 : Fin 8 → ℚ) : CalcOut :=
  if meas.length < 4 then ⟨-7, soln0, dops0, st0, none, 0, 0⟩
  else
    let soln1 : Solution := { soln0 with valid := 0, n_used := meas.length }
    let r := pvt_solve_raim E meas disable_raim st0 (fun _ _ => 0)
    if r.code < 0 then
      ⟨r.code - 3, soln1, dops0, r.state, r.removed, r.testsRun, r.repairScanSolves⟩
    else
      let soln2 := if r.code = 1 then { soln1 with n_used := meas.length - 1 } else soln1
      let bd := buildSolution E meas r.state r.H soln2
      let f := filter_solution bd.1 bd.2
      if f = 0 then
        ⟨r.code, { bd.1 with valid := 1 }, bd.2, r.state, r.removed, r.testsRun,
         r.repairScanSolves⟩
      else
        ⟨-(f : ℤ), zeroSolution, bd.2,
         fun i => if i = 0 then 0 else if i = 1 then 0 else if i = 2 then 0 else r.state i,
         r.removed, r.testsRun, r.repairScanSolves⟩

/-- The full-measurement-set solve exactly as pvt_solve_raim invokes it
    (fresh zero omp buffer of length n; calc_PVT's zero-initialized H). -/
def raimIter (E : Env) (meas : List Meas) (stt : Fin 8 → ℚ) : IterOut :=
  pvt_iter E meas stt (List.replicate meas.length 0) (fun _ _ => 0)

/-- The RAIM stage exactly as calc_PVT invokes it. -/
def calcRaim (E : Env) (meas : List Meas) (disable_raim : Bool) (stt : Fin 8 → ℚ) : RaimOut :=
  pvt_solve_raim E meas disable_raim stt (fun _ _ => 0)

/-- The leave-one-out scan exactly as pvt_repair runs it when reached through
    calc_PVT: starting from the converged full-set solution and the
    bias-adjusted omp buffer left by the failed residual test. -/
def raimScan (E : Env) (meas : List Meas) (stt : Fin 8 → ℚ) : ScanOut :=
  repairScan E meas.length meas.length meas (raimIter E meas stt).state
    (residual_test E (raimIter E meas stt).omp (raimIter E meas stt).state).1
    (raimIter E meas stt).H 0 (-1) 0 0 []

/-- The repair attempt exactly as pvt_solve_raim invokes it after a failed
    residual test: warm-started from the converged full-set state, with the
    bias-adjusted omp buffer and the full-set H. -/
def raimRepair (E : Env) (meas : List Meas) (stt : Fin 8 → ℚ) : RepairOut :=
  pvt_repair E meas (raimIter E meas stt).state
    (residual_test E (raimIter E meas stt).omp (raimIter E meas stt).state).1
    (raimIter E meas stt).H

/- ------------------------------------------------------------------ -/
/- Concrete fixtures used to instantiate the theorems below.  The square
   root table realizes the external sqrt contract on the arguments these
   runs actually produce (9 is the only sum of squares that must map to a
   large norm; every other argument maps to a small positive value). -/

/-- A square-root stand-in for the external library: 3000 at argument 9,
    1/1000 elsewhere. -/
def tblSqrt (q : ℚ) : ℚ := if q = 9 then 3000 else 1 / 1000

/-- Concrete environment: table square root, zero geodesy, identity time
    normalization, iteration cap 10. -/
def E0 : Env :=
  { sqrt := tblSqrt, ecef2ned := fun _ => fun _ _ => 0, llh := fun _ => fun _ => 0,
    nedVel := fun _ _ => fun _ => 0, normTime := fun t => t, maxIter := 10 }

/-- E0 with a geodetic-height conversion that reports 2,000,000 (outside the
    altitude bound of filter_solution). -/
def EBad : Env := { E0 with llh := fun _ => fun i => if i = 2 then 2000000 else 0 }

/-- E0 with the constant-zero square root (every correction norm is 0). -/
def EZero : Env := { E0 with sqrt := fun _ => 0 }

/-- Measurement at satellite position (x, y, z) with the given pseudorange and
    sid; zero Doppler and satellite velocity. -/
def mkMeas (x y z pr : ℚ) (sid : ℕ) : Meas :=
  ⟨pr, 0, fun i => if i = 0 then x else if i = 1 then y else z, fun _ => 0, sid, ⟨0, 0⟩⟩

/-- Satellite with a 3-unit pseudorange bias: the faulty measurement. -/
def measA : Meas := mkMeas 1 0 1 (1 / 1000 + 3) 7

def measB : Meas := mkMeas (-1) 0 1 (1 / 1000) 8

def measC : Meas := mkMeas 0 1 1 (1 / 1000) 9

def measD : Meas := mkMeas 0 (-1) 1 (1 / 1000) 10

def measE : Meas := mkMeas 0 0 1 (1 / 1000) 11

def measF : Meas := mkMeas 1 1 1 (1 / 1000) 12

/-- Six measurements, the first one faulty: the RAIM repair scenario. -/
def meas6 : List Meas := [measA, measB, measC, measD, measE, measF]

/-- Five measurements, the first one faulty: RAIM failure with no possible
    repair. -/
def meas5 : List Meas := [measA, measB, measC, measD, measE]

/-- Four consistent measurements. -/
def meas4 : List Meas := [measB, measC, measD, measE]

/-- Three measurements: below the minimum for a solution. -/
def meas3 : List Meas := [measB, measC, measD]

/-- The zero receiver-state seed. -/
def st0 : Fin 8 → ℚ := fun _ => 0

/-- The zero 4×4 matrix (calc_PVT's uninitialized H buffer). -/
def h0 : Fin 4 → Fin 4 → ℚ := fun _ _ => 0

/-- A caller-side solution struct with a stale valid flag and stale fields. -/
def staleSoln : Solution := { zeroSolution with valid := 1, n_used := 9, clock_offset := 5 }

/-- A caller-side DOP struct with recognizable stale fields. -/
def staleDops : Dops := ⟨11, 12, 13, 14, 15⟩

/-- A nonzero persistent receiver state. -/
def stNZ : Fin 8 → ℚ := fun i => if i = 0 then 5 else 0

/-- A receiver state with clock bias 7 (for the residual-test instance). -/
def st7 : Fin 8 → ℚ := fun i => if i = 3 then 7 else 0

/-- The covariance matrix used to instantiate the DOP identities:
    diag(9, 16, 0, 144). -/
def hDop : Fin 4 → Fin 4 → ℚ :=
  fun i j => if i = j then (if i = 0 then 9 else if i = 1 then 16 else if i = 2 then 0 else 144) else 0

/-- Square-root table for the DOP instance: exact on 9, 16, 25, 144, 169. -/
def dopSqrt (q : ℚ) : ℚ :=
  if q = 9 then 3 else if q = 16 then 4 else if q = 25 then 5
  else if q = 144 then 12 else if q = 169 then 13 else 0

/-- Environment for the DOP instance: exact table square root and an
    ECEF-to-NED rotation whose down row is the x unit vector. -/
def EDop : Env :=
  { E0 with sqrt := dopSqrt,
            ecef2ned := fun _ => fun r c => if r = 2 ∧ c = 0 then 1 else 0 }

/- ------------------------------------------------------------------ -/
/- Theorems. -/

/-- The convergence flag of the pvt_iter loop is 0 exactly when some
    pvt_solve call along the iteration trajectory, within the remaining fuel,
    returns a strictly positive value. -/
theorem pvtLoop_converged_iff (E : Env) (meas : List Meas) :
    ∀ (fuel : ℕ) (st : Fin 8 → ℚ) (om : List ℚ) (h : Fin 4 → Fin 4 → ℚ),
      (pvtLoop E meas fuel st om h).flag = 0 ↔
        ∃ k, k < fuel ∧ 0 < (pvt_solve E meas ((fun s => (pvt_solve E meas s).state)^[k] st)).ret := by
  intro fuel
  induction fuel with
  | zero =>
      intro st om h
      constructor
      · intro hfl; exact absurd hfl (by simp [pvtLoop])
      · rintro ⟨k, hk, _⟩; omega
  | succ n ih =>
      intro st om h
      by_cases hr : 0 < (pvt_solve E meas st).ret
      · simp only [pvtLoop, if_pos hr]
        constructor
        · intro _
          exact ⟨0, by omega, by simpa using hr⟩
        · intro _
          trivial
      · simp only [pvtLoop, if_neg hr]
        rw [ih]
        constructor
        · rintro ⟨k, hk, hret⟩
          refine ⟨k + 1, by omega, ?_⟩
          simpa [Function.iterate_succ_apply] using hret
        · rintro ⟨k, hk, hret⟩
          cases k with
          | zero => exact absurd (by simpa using hret) hr
          | succ k =>
              refine ⟨k, by omega, ?_⟩
              simpa [Function.iterate_succ_apply] using hret

/-- C5: with fewer than 4 measurements calc_PVT returns -7 and leaves the
    output solution, the DOP structure and the persistent state untouched. -/
theorem calc_PVT_too_few_measurements (E : Env) (meas : List Meas) (disable_raim : Bool)
    (soln0 : Solution) (dops0 : Dops) (stt : Fin 8 → ℚ) (h : meas.length < 4) :
    (calc_PVT E meas disable_raim soln0 dops0 stt).code = -7 ∧
    (calc_PVT E meas disable_raim soln0 dops0 stt).soln = soln0 ∧
    (calc_PVT E meas disable_raim soln0 dops0 stt).dops = dops0 ∧
    (calc_PVT E meas disable_raim soln0 dops0 stt).state = stt := by
  unfold calc_PVT
  rw [if_pos h]
  exact ⟨rfl, rfl, rfl, rfl⟩

/-- Witness for C5: a concrete call with 3 measurements, a stale caller
    solution, stale DOPs and a nonzero seed state. -/
theorem calc_PVT_too_few_measurements_witness :
    meas3.length < 4 ∧
    (calc_PVT E0 meas3 false staleSoln staleDops stNZ).code = -7 ∧
    (calc_PVT E0 meas3 false staleSoln staleDops stNZ).soln = staleSoln ∧
    (calc_PVT E0 meas3 false staleSoln staleDops stNZ).state = stNZ :=
  ⟨by decide,
   (calc_PVT_too_few_measurements E0 meas3 false staleSoln staleDops stNZ (by decide)).1,
   (calc_PVT_too_few_measurements E0 meas3 false staleSoln staleDops stNZ (by decide)).2.1,
   (calc_PVT_too_few_measurements E0 meas3 false staleSoln staleDops stNZ (by decide)).2.2.2⟩

/-- C7: each pvt_solve step adds the position components of the correction to
    the running state estimate and replaces (does not accumulate into) the
    clock-bias component with the new correction value. -/
theorem pvt_solve_state_update (E : Env) (meas : List Meas) (rx : Fin 8 → ℚ) :
    (pvt_solve E meas rx).state 0 = rx 0 + pvtCorrection E meas rx 0 ∧
    (pvt_solve E meas rx).state 1 = rx 1 + pvtCorrection E meas rx 1 ∧
    (pvt_solve E meas rx).state 2 = rx 2 + pvtCorrection E meas rx 2 ∧
    (pvt_solve E meas rx).state 3 = pvtCorrection E meas rx 3 := by
  by_cases hc : 1 / 1000 < solveNorm E meas rx
  · simp only [pvt_solve]
    rw [if_pos hc]
    exact ⟨rfl, rfl, rfl, rfl⟩
  · simp only [pvt_solve]
    rw [if_neg hc]
    exact ⟨rfl, rfl, rfl, rfl⟩

/-- C4 (amended): a pvt_solve step returns the negated position-correction
    norm while that norm exceeds 0.001 and the unnegated (hence non-negative,
    provided the external square root is non-negative there) norm once it is
    at most 0.001; and pvt_iter declares convergence exactly when some
    iteration within the cap returns a strictly positive value — a return of
    exactly zero does not stop the loop. -/
theorem pvt_solve_signed_return_and_iter (E : Env) (meas : List Meas) (stA : Fin 8 → ℚ)
    (om0 : List ℚ) (hA : Fin 4 → Fin 4 → ℚ) (rx : Fin 8 → ℚ) :
    (1 / 1000 < solveNorm E meas rx → (pvt_solve E meas rx).ret = -(solveNorm E meas rx)) ∧
    (solveNorm E meas rx ≤ 1 / 1000 → (pvt_solve E meas rx).ret = solveNorm E meas rx) ∧
    (0 ≤ solveNorm E meas rx → solveNorm E meas rx ≤ 1 / 1000 →
      0 ≤ (pvt_solve E meas rx).ret) ∧
    ((pvt_iter E meas stA om0 hA).flag = 0 ↔ ∃ k, k < E.maxIter ∧ 0 < solveRetAt E meas stA k) := by
  refine ⟨?_, ?_, ?_, ?_⟩
  · intro hlt
    unfold pvt_solve
    rw [if_pos hlt]
  · intro hle
    unfold pvt_solve
    rw [if_neg (by exact not_lt.mpr hle)]
  · intro hnn hle
    unfold pvt_solve
    rw [if_neg (by exact not_lt.mpr hle)]
    exact hnn
  · unfold pvt_iter solveRetAt solveStateAt
    exact pvtLoop_converged_iff E meas E.maxIter (resetVel stA) om0 hA

/-- Witness for C4: on four consistent measurements the correction is zero,
    the table square root returns 1/1000 ≤ 0.001, pvt_solve returns that norm
    unnegated, and pvt_iter converges because the return is positive. -/
theorem pvt_solve_signed_return_and_iter_witness :
    (pvt_solve E0 meas4 st0).ret = solveNorm E0 meas4 st0 ∧
    (pvt_iter E0 meas4 st0 (List.replicate 4 0) h0).flag = 0 :=
  ⟨(pvt_solve_signed_return_and_iter E0 meas4 st0 (List.replicate 4 0) h0 st0).2.1 (by decide),
   ((pvt_solve_signed_return_and_iter E0 meas4 st0 (List.replicate 4 0) h0 st0).2.2.2).mpr
     ⟨0, by decide, by decide⟩⟩

/-- C4 counterexample: with the constant-zero external square root every
    pvt_solve call of this run returns exactly 0 — a non-negative value,
    inside the iteration cap — yet pvt_iter reports non-convergence (-1), so
    convergence is not declared when an iteration returns a non-negative but
    non-positive value. -/
theorem pvt_iter_zero_return_counterexample :
    0 ≤ solveRetAt EZero meas4 st0 0 ∧ 0 < EZero.maxIter ∧
      (pvt_iter EZero meas4 st0 (List.replicate 4 0) h0).flag = -1 := by decide

/-- pvt_repair can only report 1 (repaired) or -1 (no reasonable solution). -/
theorem pvt_repair_ret_values (E : Env) (meas : List Meas) (stt : Fin 8 → ℚ)
    (om : List ℚ) (h : Fin 4 → Fin 4 → ℚ) :
    (pvt_repair E meas stt om h).ret = 1 ∨ (pvt_repair E meas stt om h).ret = -1 := by
  simp only [pvt_repair]
  split_ifs <;> simp

/-- C10: residual_test mutates its OMP buffer in place, subtracting the clock
    bias component of the state from every entry before computing the norm
    (the verdict is exactly whether the adjusted norm is below 3000); hence a
    RAIM-enabled solve that ends at the residual test (return codes 0 and -2)
    leaves bias-adjusted residuals — not the raw observed-minus-predicted
    values of the least-squares step — in the OMP buffer. -/
theorem residual_test_bias_adjust (E : Env) (omp : List ℚ) (rx : Fin 8 → ℚ)
    (meas : List Meas) (stt : Fin 8 → ℚ) :
    (residual_test E omp rx).1 = omp.map (fun x => x - rx 3) ∧
    ((residual_test E omp rx).2 = true ↔ vector_norm E (omp.map (fun x => x - rx 3)) < 3000) ∧
    ((calcRaim E meas false stt).code = 0 ∨ (calcRaim E meas false stt).code = -2 →
      (calcRaim E meas false stt).omp =
        (raimIter E meas stt).omp.map (fun x => x - (raimIter E meas stt).state 3)) := by
  refine ⟨rfl, by simp [residual_test], ?_⟩
  intro hcode
  have hbf : ¬ (false = true) := by decide
  by_cases hflag : (pvt_iter E meas stt (List.replicate meas.length 0) (fun _ _ => 0)).flag = -1
  · exfalso
    simp only [calcRaim, pvt_solve_raim] at hcode
    rw [if_pos hflag] at hcode
    rcases hcode with hc | hc <;> simp at hc
  · by_cases hrt : (residual_test E
        (pvt_iter E meas stt (List.replicate meas.length 0) (fun _ _ => 0)).omp
        (pvt_iter E meas stt (List.replicate meas.length 0) (fun _ _ => 0)).state).2 = true
    · by_cases h4 : meas.length = 4
      · simp only [calcRaim, pvt_solve_raim, raimIter]
        rw [if_neg hflag, if_neg hbf, if_pos hrt, if_pos h4]
        rfl
      · simp only [calcRaim, pvt_solve_raim, raimIter]
        rw [if_neg hflag, if_neg hbf, if_pos hrt, if_neg h4]
        rfl
    · by_cases h6 : meas.length < 6
      · simp only [calcRaim, pvt_solve_raim, raimIter]
        rw [if_neg hflag, if_neg hbf, if_neg hrt, if_pos h6]
        rfl
      · exfalso
        simp only [calcRaim, pvt_solve_raim] at hcode
        rw [if_neg hflag, if_neg hbf, if_neg hrt, if_neg h6] at hcode
        rcases pvt_repair_ret_values E meas
            (pvt_iter E meas stt (List.replicate meas.length 0) (fun _ _ => 0)).state
            (residual_test E (pvt_iter E meas stt (List.replicate meas.length 0) (fun _ _ => 0)).omp
              (pvt_iter E meas stt (List.replicate meas.length 0) (fun _ _ => 0)).state).1
            (pvt_iter E meas stt (List.replicate meas.length 0) (fun _ _ => 0)).H with hr | hr <;>
          rw [hr] at hcode <;> rcases hcode with hc | hc <;> simp at hc

/-- Witness for C10: a residual test with clock bias 7 subtracts 7 from every
    buffer entry, and the n = 5 failed-RAIM run leaves the bias-adjusted
    residuals in the buffer when pvt_solve_raim returns -2. -/
theorem residual_test_bias_adjust_witness :
    (residual_test E0 [5, 6] st7).1 = [5, 6].map (fun x => x - st7 3) ∧
    (calcRaim E0 meas5 false st0).omp =
      (raimIter E0 meas5 st0).omp.map (fun x => x - (raimIter E0 meas5 st0).state 3) :=
  ⟨(residual_test_bias_adjust E0 [5, 6] st7 meas5 st0).1,
   (residual_test_bias_adjust E0 [5, 6] st7 meas5 st0).2.2 (Or.inr (by decide))⟩

/-- C8: the DOP values computed by compute_dops satisfy
    GDOP² = PDOP² + TDOP² and PDOP² = HDOP² + VDOP², with PDOP² the position
    trace of H, TDOP² the clock diagonal term, and VDOP² the projection of H
    through the local down unit vector — provided the external square root is
    exact on the five arguments this call hands it. -/
theorem compute_dops_identities (E : Env) (H : Fin 4 → Fin 4 → ℚ) (pos : Fin 3 → ℚ)
    (h1 : E.sqrt (H 0 0 + H 1 1 + H 2 2) ^ 2 = H 0 0 + H 1 1 + H 2 2)
    (h2 : E.sqrt (H 3 3) ^ 2 = H 3 3)
    (h3 : E.sqrt (H 0 0 + H 1 1 + H 2 2 + H 3 3) ^ 2 = H 0 0 + H 1 1 + H 2 2 + H 3 3)
    (h4 : E.sqrt (vdopSq E H pos) ^ 2 = vdopSq E H pos)
    (h5 : E.sqrt (H 0 0 + H 1 1 + H 2 2 - vdopSq E H pos) ^ 2 =
      H 0 0 + H 1 1 + H 2 2 - vdopSq E H pos) :
    (compute_dops E H pos).gdop ^ 2 =
        (compute_dops E H pos).pdop ^ 2 + (compute_dops E H pos).tdop ^ 2 ∧
    (compute_dops E H pos).pdop ^ 2 =
        (compute_dops E H pos).hdop ^ 2 + (compute_dops E H pos).vdop ^ 2 ∧
    (compute_dops E H pos).pdop ^ 2 = H 0 0 + H 1 1 + H 2 2 ∧
    (compute_dops E H pos).tdop ^ 2 = H 3 3 ∧
    (compute_dops E H pos).vdop ^ 2 = vdopSq E H pos := by
  simp only [compute_dops]
  rw [h1, h2, h3, h4, h5]
  refine ⟨rfl, by ring, rfl, rfl, rfl⟩

/-- Witness for C8: H = diag(9, 16, 0, 144) with the down vector (1,0,0),
    where PDOP² = 25, TDOP² = 144, GDOP² = 169, VDOP² = 9, HDOP² = 16. -/
theorem compute_dops_identities_witness :
    (compute_dops EDop hDop (fun _ => 0)).gdop ^ 2 =
        (compute_dops EDop hDop (fun _ => 0)).pdop ^ 2 +
          (compute_dops EDop hDop (fun _ => 0)).tdop ^ 2 ∧
    (compute_dops EDop hDop (fun _ => 0)).pdop ^ 2 =
        (compute_dops EDop hDop (fun _ => 0)).hdop ^ 2 +
          (compute_dops EDop hDop (fun _ => 0)).vdop ^ 2 :=
  ⟨(compute_dops_identities EDop hDop (fun _ => 0) (by decide) (by decide) (by decide)
      (by decide) (by decide)).1,
   (compute_dops_identities EDop hDop (fun _ => 0) (by decide) (by decide) (by decide)
      (by decide) (by decide)).2.1⟩

/-- C1 (amended): with exactly 4 measurements, a converged solve and a passing
    residual test (or RAIM disabled), pvt_solve_raim returns 2 and calc_PVT
    returns 2 provided the quality filter accepts the solution — but with
    RAIM enabled the residual test IS invoked (exactly once): the exactly-4
    shortcut applies only after the test has passed, it is not skipped before
    being run. -/
theorem calc_PVT_exactly_four (E : Env) (meas : List Meas) (stt : Fin 8 → ℚ)
    (soln0 : Solution) (dops0 : Dops) (disable_raim : Bool)
    (hlen : meas.length = 4)
    (hconv : (raimIter E meas stt).flag = 0)
    (hpass : disable_raim = true ∨
      (residual_test E (raimIter E meas stt).omp (raimIter E meas stt).state).2 = true)
    (hfil : filter_solution
        (buildSolution E meas (calcRaim E meas disable_raim stt).state
          (calcRaim E meas disable_raim stt).H
          { soln0 with valid := 0, n_used := meas.length }).1
        (buildSolution E meas (calcRaim E meas disable_raim stt).state
          (calcRaim E meas disable_raim stt).H
          { soln0 with valid := 0, n_used := meas.length }).2 = 0) :
    (calcRaim E meas disable_raim stt).code = 2 ∧
    (disable_raim = false → (calcRaim E meas disable_raim stt).testsRun = 1) ∧
    (calc_PVT E meas disable_raim soln0 dops0 stt).code = 2 := by
  have hflag : ¬ (pvt_iter E meas stt (List.replicate meas.length 0) (fun _ _ => 0)).flag = -1 := by
    rw [show (pvt_iter E meas stt (List.replicate meas.length 0) (fun _ _ => 0)) =
          raimIter E meas stt from rfl, hconv]
    decide
  have hmain : (calcRaim E meas disable_raim stt).code = 2 ∧
      (disable_raim = false → (calcRaim E meas disable_raim stt).testsRun = 1) := by
    cases disable_raim with
    | true =>
        refine ⟨?_, fun hfalse => by cases hfalse⟩
        simp only [calcRaim, pvt_solve_raim]
        rw [if_neg hflag]
        simp
    | false =>
        have hrt : (residual_test E
            (pvt_iter E meas stt (List.replicate meas.length 0) (fun _ _ => 0)).omp
            (pvt_iter E meas stt (List.replicate meas.length 0) (fun _ _ => 0)).state).2 = true := by
          rcases hpass with hp | hp
          · exact absurd hp (by decide)
          · exact hp
        constructor
        · simp only [calcRaim, pvt_solve_raim]
          rw [if_neg hflag, if_neg (show ¬(false = true) by decide), if_pos hrt, if_pos hlen]
        · intro _
          simp only [calcRaim, pvt_solve_raim]
          rw [if_neg hflag, if_neg (show ¬(false = true) by decide), if_pos hrt, if_pos hlen]
  refine ⟨hmain.1, hmain.2, ?_⟩
  have hnotlt : ¬ meas.length < 4 := by omega
  have hcode2 : ¬ (calcRaim E meas disable_raim stt).code < 0 := by rw [hmain.1]; decide
  have hcode1 : ¬ (calcRaim E meas disable_raim stt).code = 1 := by rw [hmain.1]; decide
  simp only [calc_PVT, if_neg hnotlt]
  rw [show pvt_solve_raim E meas disable_raim stt (fun _ _ => 0) =
        calcRaim E meas disable_raim stt from rfl]
  rw [if_neg hcode2, if_neg hcode1, if_pos hfil]
  exact hmain.1

/-- C1 counterexample: a concrete RAIM-enabled call with exactly 4
    measurements that converges and returns code 2 — and in which the RAIM
    residual test was invoked (once), contradicting that it is skipped before
    being run. -/
theorem calc_PVT_four_test_invoked_counterexample :
    (raimIter E0 meas4 st0).flag = 0 ∧
    (calc_PVT E0 meas4 false zeroSolution staleDops st0).code = 2 ∧
    (calc_PVT E0 meas4 false zeroSolution staleDops st0).testsRun = 1 := by decide

/-- Witness for C1 (amended): the same concrete run, obtained by applying the
    theorem with its hypotheses discharged by evaluation. -/
theorem calc_PVT_exactly_four_witness :
    (calcRaim E0 meas4 false st0).code = 2 ∧
    (calc_PVT E0 meas4 false zeroSolution staleDops st0).code = 2 ∧
    (calcRaim E0 meas4 false st0).testsRun = 1 := by
  have h := calc_PVT_exactly_four E0 meas4 st0 zeroSolution staleDops false (by decide)
    (by decide) (Or.inr (by decide)) (by decide)
  exact ⟨h.1, h.2.2, h.2.1 rfl⟩

/-- C6: with exactly 5 measurements, RAIM enabled, a converged solve and a
    failing residual test, repair is declared impossible without attempting a
    single leave-one-out solve (the repair scan never runs) and calc_PVT
    returns -5. -/
theorem calc_PVT_five_repair_impossible (E : Env) (meas : List Meas) (stt : Fin 8 → ℚ)
    (soln0 : Solution) (dops0 : Dops)
    (hlen : meas.length = 5)
    (hconv : (raimIter E meas stt).flag = 0)
    (hfail : (residual_test E (raimIter E meas stt).omp (raimIter E meas stt).state).2 = false) :
    (calcRaim E meas false stt).code = -2 ∧
    (calcRaim E meas false stt).repairScanSolves = 0 ∧
    (calc_PVT E meas false soln0 dops0 stt).code = -5 := by
  have hflag : ¬ (pvt_iter E meas stt (List.replicate meas.length 0) (fun _ _ => 0)).flag = -1 := by
    rw [show (pvt_iter E meas stt (List.replicate meas.length 0) (fun _ _ => 0)) =
          raimIter E meas stt from rfl, hconv]
    decide
  have hrt : ¬ (residual_test E
      (pvt_iter E meas stt (List.replicate meas.length 0) (fun _ _ => 0)).omp
      (pvt_iter E meas stt (List.replicate meas.length 0) (fun _ _ => 0)).state).2 = true := by
    rw [show (pvt_iter E meas stt (List.replicate meas.length 0) (fun _ _ => 0)) =
          raimIter E meas stt from rfl, hfail]
    decide
  have h6 : meas.length < 6 := by omega
  have hmain : (calcRaim E meas false stt).code = -2 ∧
      (calcRaim E meas false stt).repairScanSolves = 0 := by
    constructor <;>
      · simp only [calcRaim, pvt_solve_raim]
        rw [if_neg hflag, if_neg (show ¬(false = true) by decide), if_neg hrt, if_pos h6]
  refine ⟨hmain.1, hmain.2, ?_⟩
  have hnotlt : ¬ meas.length < 4 := by omega
  have hneg : (calcRaim E meas false stt).code < 0 := by rw [hmain.1]; decide
  simp only [calc_PVT, if_neg hnotlt]
  rw [show pvt_solve_raim E meas false stt (fun _ _ => 0) = calcRaim E meas false stt from rfl]
  rw [if_pos hneg, hmain.1]
  norm_num

/-- Witness for C6: the concrete 5-measurement run with the biased first
    pseudorange: the residual test fails, no leave-one-out solve is attempted,
    and calc_PVT returns -5. -/
theorem calc_PVT_five_repair_impossible_witness :
    (calcRaim E0 meas5 false st0).code = -2 ∧
    (calcRaim E0 meas5 false st0).repairScanSolves = 0 ∧
    (calc_PVT E0 meas5 false zeroSolution staleDops st0).code = -5 :=
  calc_PVT_five_repair_impossible E0 meas5 st0 zeroSolution staleDops (by decide) (by decide)
    (by decide)

/-- C3 (amended): every quality-filter rejection — return code -1 or -2 —
    zeroes the output solution structure and clears the position portion of
    the persistent receiver state before returning. -/
theorem calc_PVT_reject_zeroes (E : Env) (meas : List Meas) (disable_raim : Bool)
    (soln0 : Solution) (dops0 : Dops) (stt : Fin 8 → ℚ)
    (hcode : (calc_PVT E meas disable_raim soln0 dops0 stt).code = -1 ∨
             (calc_PVT E meas disable_raim soln0 dops0 stt).code = -2) :
    (calc_PVT E meas disable_raim soln0 dops0 stt).soln = zeroSolution ∧
    (calc_PVT E meas disable_raim soln0 dops0 stt).state 0 = 0 ∧
    (calc_PVT E meas disable_raim soln0 dops0 stt).state 1 = 0 ∧
    (calc_PVT E meas disable_raim soln0 dops0 stt).state 2 = 0 := by
  simp only [calc_PVT] at hcode ⊢
  split_ifs at hcode ⊢ with h1 h2 h3 h4 h5
  all_goals first
    | exact ⟨rfl, rfl, rfl, rfl⟩
    | (exfalso; rcases hcode with hc | hc <;> simp at hc <;> omega)

/-- C3 counterexample: a call with 3 measurements returns the negative code -7
    yet leaves the caller's stale output solution (valid flag still 1) and the
    nonzero position of the persistent state untouched. -/
theorem calc_PVT_minus7_untouched_counterexample :
    (calc_PVT E0 meas3 false staleSoln staleDops stNZ).code = -7 ∧
    (calc_PVT E0 meas3 false staleSoln staleDops stNZ).soln.valid = 1 ∧
    (calc_PVT E0 meas3 false staleSoln staleDops stNZ).state 0 = 5 := by decide

/-- Witness for C3 (amended): the altitude-rejected concrete run (code -2) has
    its solution zeroed and position state cleared. -/
theorem calc_PVT_reject_zeroes_witness :
    (calc_PVT EBad meas4 false staleSoln staleDops st0).soln = zeroSolution ∧
    (calc_PVT EBad meas4 false staleSoln staleDops st0).state 0 = 0 :=
  ⟨(calc_PVT_reject_zeroes EBad meas4 false staleSoln staleDops st0 (Or.inr (by decide))).1,
   (calc_PVT_reject_zeroes EBad meas4 false staleSoln staleDops st0 (Or.inr (by decide))).2.1⟩

/-- C9 (amended): for calls with at least 4 measurements the output solution
    is marked valid exactly when the returned code is non-negative, and every
    code in -6..-1 leaves the validity flag 0.  (With fewer than 4
    measurements the solution is returned untouched, so the caller's stale
    flag survives a -7 return.) -/
theorem calc_PVT_valid_iff (E : Env) (meas : List Meas) (disable_raim : Bool)
    (soln0 : Solution) (dops0 : Dops) (stt : Fin 8 → ℚ) (hlen : 4 ≤ meas.length) :
    ((calc_PVT E meas disable_raim soln0 dops0 stt).soln.valid = 1 ↔
      0 ≤ (calc_PVT E meas disable_raim soln0 dops0 stt).code) ∧
    (-6 ≤ (calc_PVT E meas disable_raim soln0 dops0 stt).code →
      (calc_PVT E meas disable_raim soln0 dops0 stt).code ≤ -1 →
      (calc_PVT E meas disable_raim soln0 dops0 stt).soln.valid = 0) := by
  have hnl : ¬ meas.length < 4 := by omega
  simp only [calc_PVT]
  rw [if_neg hnl]
  split_ifs with h1 h2 h3 h4
  all_goals refine ⟨⟨fun hv => ?_, fun hc => ?_⟩, fun ha hb => ?_⟩
  all_goals first
    | rfl
    | (simp [zeroSolution] at hv ⊢ <;> omega)
    | (simp [zeroSolution] at hc ⊢ <;> omega)
    | (simp [zeroSolution] at ha hb ⊢ <;> omega)

/-- C9 counterexample: a call with too few measurements returns -7 — a
    negative code — while the output solution still carries the caller's
    stale valid = 1 flag, because nothing is written before the -7 return. -/
theorem calc_PVT_stale_valid_counterexample :
    (calc_PVT E0 meas3 true staleSoln staleDops st0).code = -7 ∧
    (calc_PVT E0 meas3 true staleSoln staleDops st0).soln.valid = 1 := by decide

/-- Witness for C9 (amended): the accepted 4-measurement run has its solution
    marked valid via the non-negative return code. -/
theorem calc_PVT_valid_iff_witness :
    (calc_PVT E0 meas4 false zeroSolution staleDops st0).soln.valid = 1 :=
  (calc_PVT_valid_iff E0 meas4 false zeroSolution staleDops st0 (by decide)).1.mpr (by decide)

/-- A repair scan that never aborts performs exactly one leave-one-out solve
    per unit of fuel: the instrumented solve counter ends at acc + k. -/
theorem repairScan_solves (E : Env) (n : ℕ) :
    ∀ (k : ℕ) (subset : List Meas) (st : Fin 8 → ℚ) (om : List ℚ) (h : Fin 4 → Fin 4 → ℚ)
      (np : ℕ) (bs : ℤ) (acc tst : ℕ) (subs : List (List Meas)),
      (repairScan E n k subset st om h np bs acc tst subs).aborted = false →
      (repairScan E n k subset st om h np bs acc tst subs).solves = acc + k := by
  intro k
  induction k with
  | zero =>
      intro subset st om h np bs acc tst subs _
      simp [repairScan]
  | succ m ih =>
      intro subset st om h np bs acc tst subs hnab
      simp only [repairScan] at hnab ⊢
      by_cases hfl : (pvt_iter E (List.take (n - 1) (listSwap subset m (n - 1))) st om h).flag = -1
      · rw [if_pos hfl] at hnab
        exact absurd hnab (by simp)
      · rw [if_neg hfl] at hnab ⊢
        by_cases hr2 : (residual_test E
            (pvt_iter E (List.take (n - 1) (listSwap subset m (n - 1))) st om h).omp
            (pvt_iter E (List.take (n - 1) (listSwap subset m (n - 1))) st om h).state).2 = true
        · rw [if_pos hr2] at hnab ⊢
          rw [ih _ _ _ _ _ _ _ _ _ hnab]
          omega
        · rw [if_neg hr2] at hnab ⊢
          rw [ih _ _ _ _ _ _ _ _ _ hnab]
          omega

/-- entSub preserves the length of the measurement list. -/
theorem entSub_length (meas : List Meas) (k : ℕ) (hk : k ≤ meas.length) :
    (entSub meas k).length = meas.length := by
  unfold entSub
  rw [List.length_append, List.length_eraseIdx, List.length_take, List.length_drop]
  split_ifs <;> omega

/-- Elementwise description of the permuted array entSub. -/
theorem entSub_getElem? (meas : List Meas) (k i : ℕ) (hk : k ≤ meas.length) :
    (entSub meas k)[i]? =
      if i < k then meas[i]?
      else if i + 1 < meas.length then meas[i + 1]?
      else if i < meas.length then meas[k]?
      else none := by
  unfold entSub
  rw [List.getElem?_append, List.getElem?_eraseIdx, List.getElem?_take, List.getElem?_drop,
    List.length_eraseIdx]
  split_ifs <;>
    first
      | rfl
      | omega
      | (rw [List.getElem?_eq_none (by omega)])
      | (rw [show k + (i - (meas.length - 1)) = k from by omega])
      | (rw [show i = meas.length - 1 from by omega])

/-- Before the first scan iteration the permuted array is meas itself. -/
theorem entSub_top (meas : List Meas) : entSub meas meas.length = meas := by
  unfold entSub
  rw [List.eraseIdx_of_length_le (le_refl _), List.drop_length]
  simp

/-- Dropping the last slot of the permuted array leaves exactly the
    measurement list with index k removed, in original order. -/
theorem entSub_take (meas : List Meas) (k : ℕ) (hk : k < meas.length) :
    List.take (meas.length - 1) (entSub meas k) = meas.eraseIdx k := by
  unfold entSub
  apply List.take_left'
  rw [List.length_eraseIdx, if_pos hk]

/-- The swap performed at drop index k turns the permuted array for k + 1
    into the permuted array for k. -/
theorem listSwap_entSub (meas : List Meas) (k : ℕ) (hk : k + 1 ≤ meas.length) :
    listSwap (entSub meas (k + 1)) k (meas.length - 1) = entSub meas k := by
  apply List.ext_getElem?
  intro i
  unfold listSwap
  rw [List.getElem?_set, List.getElem?_set, List.length_set,
    entSub_length meas (k + 1) hk,
    List.getD_eq_getElem?_getD, List.getD_eq_getElem?_getD,
    entSub_getElem? meas (k + 1) (meas.length - 1) hk,
    entSub_getElem? meas (k + 1) k hk,
    entSub_getElem? meas (k + 1) i hk,
    entSub_getElem? meas k i (by omega)]
  by_cases hke : k + 1 = meas.length
  · -- last iteration: the swap is between identical positions
    split_ifs <;>
      first
        | rfl
        | omega
        | (rw [List.getElem?_eq_getElem (show k + 1 < meas.length from by omega)]; rfl)
        | (rw [List.getElem?_eq_getElem (show k < meas.length from by omega)]; rfl)
        | (rw [show k + 1 = i + 1 from by omega,
               List.getElem?_eq_getElem (show i + 1 < meas.length from by omega)]; rfl)
        | (rw [show (k : ℕ) = i from by omega,
               List.getElem?_eq_getElem (show i < meas.length from by omega)]; rfl)
        | (rw [show i = k from by omega])
        | (rw [show k + 1 = i + 1 from by omega])
  · split_ifs <;>
      first
        | rfl
        | omega
        | (rw [List.getElem?_eq_getElem (show k + 1 < meas.length from by omega)]; rfl)
        | (rw [List.getElem?_eq_getElem (show k < meas.length from by omega)]; rfl)
        | (rw [show k + 1 = i + 1 from by omega,
               List.getElem?_eq_getElem (show i + 1 < meas.length from by omega)]; rfl)
        | (rw [show (k : ℕ) = i from by omega,
               List.getElem?_eq_getElem (show i < meas.length from by omega)]; rfl)
        | (rw [show i = k from by omega])
        | (rw [show k + 1 = i + 1 from by omega])

/-- A non-aborting scan started at countdown k from the matching permuted
    array solves exactly the leave-one-out subsets for drop indices
    k-1, k-2, ..., 0, each in original measurement order. -/
theorem repairScan_subsets (E : Env) (meas : List Meas) :
    ∀ (k : ℕ) (st : Fin 8 → ℚ) (om : List ℚ) (h : Fin 4 → Fin 4 → ℚ)
      (np : ℕ) (bs : ℤ) (acc tst : ℕ) (subs : List (List Meas)),
      k ≤ meas.length →
      (repairScan E meas.length k (entSub meas k) st om h np bs acc tst subs).aborted = false →
      (repairScan E meas.length k (entSub meas k) st om h np bs acc tst subs).subsetsSolved =
        subs ++ ((List.range k).reverse.map (fun d => meas.eraseIdx d)) := by
  intro k
  induction k with
  | zero =>
      intro st om h np bs acc tst subs _ _
      simp [repairScan]
  | succ m ih =>
      intro st om h np bs acc tst subs hk hnab
      have hswap : listSwap (entSub meas (m + 1)) m (meas.length - 1) = entSub meas m :=
        listSwap_entSub meas m hk
      have htake : List.take (meas.length - 1) (entSub meas m) = meas.eraseIdx m :=
        entSub_take meas m (by omega)
      simp only [repairScan] at hnab ⊢
      rw [hswap, htake] at hnab ⊢
      by_cases hfl : (pvt_iter E (meas.eraseIdx m) st om h).flag = -1
      · rw [if_pos hfl] at hnab
        exact absurd hnab (by simp)
      · rw [if_neg hfl] at hnab ⊢
        by_cases hr2 : (residual_test E (pvt_iter E (meas.eraseIdx m) st om h).omp
            (pvt_iter E (meas.eraseIdx m) st om h).state).2 = true
        · rw [if_pos hr2] at hnab ⊢
          rw [ih _ _ _ _ _ _ _ (subs ++ [meas.eraseIdx m]) (by omega) hnab, List.range_succ]
          simp
        · rw [if_neg hr2] at hnab ⊢
          rw [ih _ _ _ _ _ _ _ (subs ++ [meas.eraseIdx m]) (by omega) hnab, List.range_succ]
          simp

/-- A non-aborting repair scan solves exactly the n leave-one-out subsets
    meas.eraseIdx d, for d = n-1 down to 0. -/
theorem raimScan_subsets (E : Env) (meas : List Meas) (stt : Fin 8 → ℚ)
    (hnab : (raimScan E meas stt).aborted = false) :
    (raimScan E meas stt).subsetsSolved =
      (List.range meas.length).reverse.map (fun d => meas.eraseIdx d) := by
  have h1 : entSub meas meas.length = meas := entSub_top meas
  have h2 := repairScan_subsets E meas meas.length (raimIter E meas stt).state
    (residual_test E (raimIter E meas stt).omp (raimIter E meas stt).state).1
    (raimIter E meas stt).H 0 (-1) 0 0 [] (le_refl _)
  rw [h1] at h2
  simpa using h2 hnab

/-- C2: after a converged n ≥ 6 solve whose residual test fails, the repair
    search runs one solve for each of the n leave-one-out subsets — the
    solved subsets are exactly the measurement list with index d removed, for
    d = n-1 down to 0 (provided none of them diverges, which would abort the
    search); if exactly one
    subset passes the residual test, that subset's solution is recomputed and
    kept, the excluded satellite's sid is recorded, and calc_PVT returns 1
    with the reported measurement count decremented by one (once the quality
    filter accepts the repaired solution); if zero or more than one subset
    passes, repair reports failure and calc_PVT returns -4. -/
theorem pvt_repair_exactly_one (E : Env) (meas : List Meas) (stt : Fin 8 → ℚ)
    (soln0 : Solution) (dops0 : Dops)
    (hlen : 6 ≤ meas.length)
    (hconv : (raimIter E meas stt).flag = 0)
    (hfail : (residual_test E (raimIter E meas stt).omp (raimIter E meas stt).state).2 = false)
    (hnab : (raimScan E meas stt).aborted = false) :
    (raimScan E meas stt).solves = meas.length ∧
    (raimScan E meas stt).subsetsSolved =
      (List.range meas.length).reverse.map (fun d => meas.eraseIdx d) ∧
    ((raimScan E meas stt).numPassing = 1 →
      (calcRaim E meas false stt).code = 1 ∧
      (calcRaim E meas false stt).removed =
        some ((meas.getD (raimScan E meas stt).badSat.toNat default).sid) ∧
      (calcRaim E meas false stt).state =
        (pvt_iter E
          (List.take (meas.length - 1)
            (meas.set (raimScan E meas stt).badSat.toNat (meas.getD (meas.length - 1) default)))
          (raimScan E meas stt).state (raimScan E meas stt).omp (raimScan E meas stt).H).state ∧
      (filter_solution
          (buildSolution E meas (calcRaim E meas false stt).state (calcRaim E meas false stt).H
            { { soln0 with valid := 0, n_used := meas.length } with
                n_used := meas.length - 1 }).1
          (buildSolution E meas (calcRaim E meas false stt).state (calcRaim E meas false stt).H
            { { soln0 with valid := 0, n_used := meas.length } with
                n_used := meas.length - 1 }).2 = 0 →
        (calc_PVT E meas false soln0 dops0 stt).code = 1 ∧
        (calc_PVT E meas false soln0 dops0 stt).soln.n_used = meas.length - 1)) ∧
    ((raimScan E meas stt).numPassing ≠ 1 →
      (calcRaim E meas false stt).code = -1 ∧
      (calc_PVT E meas false soln0 dops0 stt).code = -4) := by
  have hflag : ¬ (pvt_iter E meas stt (List.replicate meas.length 0) (fun _ _ => 0)).flag = -1 := by
    rw [show (pvt_iter E meas stt (List.replicate meas.length 0) (fun _ _ => 0)) =
          raimIter E meas stt from rfl, hconv]
    decide
  have hrt : ¬ (residual_test E
      (pvt_iter E meas stt (List.replicate meas.length 0) (fun _ _ => 0)).omp
      (pvt_iter E meas stt (List.replicate meas.length 0) (fun _ _ => 0)).state).2 = true := by
    rw [show (pvt_iter E meas stt (List.replicate meas.length 0) (fun _ _ => 0)) =
          raimIter E meas stt from rfl, hfail]
    decide
  have h6 : ¬ meas.length < 6 := by omega
  have hcr : calcRaim E meas false stt =
      ⟨(raimRepair E meas stt).state, (raimRepair E meas stt).omp, (raimRepair E meas stt).H,
       (raimRepair E meas stt).ret, (raimRepair E meas stt).removed,
       1 + (raimRepair E meas stt).tests, (raimRepair E meas stt).scanSolves⟩ := by
    simp only [calcRaim, pvt_solve_raim]
    rw [if_neg hflag, if_neg (show ¬(false = true) by decide), if_neg hrt, if_neg h6]
    rfl
  have habort : ¬ (raimScan E meas stt).aborted = true := by
    rw [hnab]
    decide
  have hrep : raimRepair E meas stt =
      (if (raimScan E meas stt).numPassing = 1 then
        ⟨(pvt_iter E
            (List.take (meas.length - 1)
              (meas.set (raimScan E meas stt).badSat.toNat (meas.getD (meas.length - 1) default)))
            (raimScan E meas stt).state (raimScan E meas stt).omp (raimScan E meas stt).H).state,
         (pvt_iter E
            (List.take (meas.length - 1)
              (meas.set (raimScan E meas stt).badSat.toNat (meas.getD (meas.length - 1) default)))
            (raimScan E meas stt).state (raimScan E meas stt).omp (raimScan E meas stt).H).omp,
         (pvt_iter E
            (List.take (meas.length - 1)
              (meas.set (raimScan E meas stt).badSat.toNat (meas.getD (meas.length - 1) default)))
            (raimScan E meas stt).state (raimScan E meas stt).omp (raimScan E meas stt).H).H,
         1, some ((meas.getD (raimScan E meas stt).badSat.toNat default).sid),
         (raimScan E meas stt).solves, (raimScan E meas stt).tests,
         (raimScan E meas stt).subsetsSolved⟩
      else
        ⟨(raimScan E meas stt).state, (raimScan E meas stt).omp, (raimScan E meas stt).H, -1,
         none, (raimScan E meas stt).solves, (raimScan E meas stt).tests,
         (raimScan E meas stt).subsetsSolved⟩) := by
    simp only [raimRepair, pvt_repair]
    rw [show repairScan E meas.length meas.length meas (raimIter E meas stt).state
          (residual_test E (raimIter E meas stt).omp (raimIter E meas stt).state).1
          (raimIter E meas stt).H 0 (-1) 0 0 [] = raimScan E meas stt from rfl]
    rw [if_neg habort]
  have hsolves : (raimScan E meas stt).solves = meas.length := by
    have := repairScan_solves E meas.length meas.length meas (raimIter E meas stt).state
      (residual_test E (raimIter E meas stt).omp (raimIter E meas stt).state).1
      (raimIter E meas stt).H 0 (-1) 0 0 [] hnab
    simpa using this
  refine ⟨hsolves, raimScan_subsets E meas stt hnab, ?_, ?_⟩
  · intro hnp
    have hret : (calcRaim E meas false stt).code = 1 := by
      rw [hcr]
      show (raimRepair E meas stt).ret = 1
      rw [hrep, if_pos hnp]
    have hrem : (calcRaim E meas false stt).removed =
        some ((meas.getD (raimScan E meas stt).badSat.toNat default).sid) := by
      rw [hcr]
      show (raimRepair E meas stt).removed = _
      rw [hrep, if_pos hnp]
    have hst : (calcRaim E meas false stt).state =
        (pvt_iter E
          (List.take (meas.length - 1)
            (meas.set (raimScan E meas stt).badSat.toNat (meas.getD (meas.length - 1) default)))
          (raimScan E meas stt).state (raimScan E meas stt).omp (raimScan E meas stt).H).state := by
      rw [hcr]
      show (raimRepair E meas stt).state = _
      rw [hrep, if_pos hnp]
    refine ⟨hret, hrem, hst, ?_⟩
    intro hfil
    have hnl : ¬ meas.length < 4 := by omega
    have hnotneg : ¬ (calcRaim E meas false stt).code < 0 := by
      rw [hret]
      decide
    simp only [calc_PVT]
    rw [if_neg hnl]
    rw [show pvt_solve_raim E meas false stt (fun _ _ => 0) = calcRaim E meas false stt from rfl]
    rw [if_neg hnotneg, if_pos hret, if_pos hfil]
    constructor
    · exact hret
    · simp [buildSolution]
  · intro hnp
    have hret : (calcRaim E meas false stt).code = -1 := by
      rw [hcr]
      show (raimRepair E meas stt).ret = -1
      rw [hrep, if_neg hnp]
    refine ⟨hret, ?_⟩
    have hnl : ¬ meas.length < 4 := by omega
    have hneg : (calcRaim E meas false stt).code < 0 := by
      rw [hret]
      decide
    simp only [calc_PVT]
    rw [if_neg hnl]
    rw [show pvt_solve_raim E meas false stt (fun _ _ => 0) = calcRaim E meas false stt from rfl]
    rw [if_pos hneg, hret]
    norm_num

/-- Witness for C2: six measurements on a common z = 1 plane, the first with a
    3-unit pseudorange bias.  The full-set residual test fails (norm 3000),
    all six leave-one-out subsets are solved, exactly the subset excluding the
    first measurement passes, its sid 7 is reported, and calc_PVT returns 1
    with the measurement count decremented from 6 to 5. -/
theorem pvt_repair_exactly_one_witness :
    (raimScan E0 meas6 st0).solves = meas6.length ∧
    (calcRaim E0 meas6 false st0).code = 1 ∧
    (calcRaim E0 meas6 false st0).removed = some 7 ∧
    (calc_PVT E0 meas6 false zeroSolution staleDops st0).code = 1 ∧
    (calc_PVT E0 meas6 false zeroSolution staleDops st0).soln.n_used = meas6.length - 1 := by
  have h := pvt_repair_exactly_one E0 meas6 st0 zeroSolution staleDops (by decide) (by decide)
    (by decide) (by decide)
  have hb := h.2.2.1 (by decide)
  have hc := hb.2.2.2 (by decide)
  exact ⟨h.1, hb.1, hb.2.1.trans (by decide), hc.1, hc.2⟩

end Pvt
